import Mathlib

/-!
Shallow embedding of `finance_manager.py` (class `BankAccount`).

Modelling choices:
* Python `float` amounts are modelled as exact rationals (`ℚ`).
* `datetime.now()` is modelled by an explicit `now : String` argument to
  every operation that logs a transaction.
* Python exceptions become an explicit error type; every mutating method
  returns the post-call object state together with `Except BankError r`,
  so that the state after a raising call is observable (Python leaves the
  object in whatever state it had at the raise point).
* `transfer` on two distinct objects is `BankAccount.transfer`; the
  aliased call `a.transfer(a, m)` is modelled separately by
  `BankAccount.transfer_self`, threading the single object's state through
  the same sequence of steps the Python interpreter performs.
-/

/-- One entry of `transaction_history`: the dict built by
`_log_transaction`. -/
structure TransactionRecord where
  date : String
  action : String
  amount : ℚ
  balance_after : ℚ
deriving DecidableEq, Repr

/-- The exception kinds raised by `finance_manager.py`. -/
inductive BankError where
  | valueError (msg : String)
  | permissionError (msg : String)
  | typeError (msg : String)
deriving DecidableEq, Repr

/-- The `BankAccount` object state. -/
structure BankAccount where
  owner : String
  balance : ℚ
  currency : String
  is_frozen : Bool
  transaction_history : List TransactionRecord
deriving DecidableEq, Repr

namespace BankAccount

/-- `_log_transaction(action, amount)`: appends a record whose
`balance_after` snapshots the current balance. -/
def log_transaction (self : BankAccount) (now action : String) (amount : ℚ) :
    BankAccount :=
  { self with transaction_history :=
      self.transaction_history ++
        [{ date := now, action := action, amount := amount,
           balance_after := self.balance }] }

/-- `BankAccount.__init__(owner, initial_balance, currency)`: rejects a
negative initial balance, otherwise starts with an empty history and logs
the creation record. -/
def make (owner : String) (initial_balance : ℚ) (currency : String)
    (now : String) : Except BankError BankAccount :=
  if initial_balance < 0 then
    .error (.valueError "Початковий баланс не може бути від'ємним.")
  else
    .ok (log_transaction
      { owner := owner, balance := initial_balance, currency := currency,
        is_frozen := false, transaction_history := [] }
      now "Створення рахунку" initial_balance)

/-- `deposit(amount)`: frozen check first, then positivity check, then
credit and log. -/
def deposit (self : BankAccount) (amount : ℚ) (now : String) :
    BankAccount × Except BankError ℚ :=
  if self.is_frozen then
    (self, .error (.permissionError "Рахунок заморожено. Операції заборонені."))
  else if amount ≤ 0 then
    (self, .error (.valueError "Сума поповнення має бути більше нуля."))
  else
    let self1 := { self with balance := self.balance + amount }
    let self2 := log_transaction self1 now "Поповнення" amount
    (self2, .ok self2.balance)

/-- `withdraw(amount)`: frozen check first, then positivity, then funds
check, then debit and log (with negated amount). -/
def withdraw (self : BankAccount) (amount : ℚ) (now : String) :
    BankAccount × Except BankError ℚ :=
  if self.is_frozen then
    (self, .error (.permissionError "Рахунок заморожено. Операції заборонені."))
  else if amount ≤ 0 then
    (self, .error (.valueError "Сума зняття має бути більше нуля."))
  else if amount > self.balance then
    (self, .error (.valueError "Недостатньо коштів на рахунку."))
  else
    let self1 := { self with balance := self.balance - amount }
    let self2 := log_transaction self1 now "Зняття" (-amount)
    (self2, .ok self2.balance)

/-- `self.transaction_history[-1]["action"] = s`: rewrite the action of
the last record in place (history is nonempty at every call site, since a
withdrawal record was just appended). -/
def set_last_action (l : List TransactionRecord) (s : String) :
    List TransactionRecord :=
  l.dropLast ++
    (match l.getLast? with
     | none => []
     | some r => [{ r with action := s }])

/-- `transfer(other_account, amount)` for two distinct objects.  The
`isinstance` check always passes in this typed embedding.  Currency
mismatch raises; otherwise withdraw from self, deposit to other; if the
deposit raises, credit the amount straight back to `self.balance` (no
history change) and re-raise; on success relabel self's last history
record. -/
def transfer (self other : BankAccount) (amount : ℚ) (now : String) :
    (BankAccount × BankAccount) × Except BankError Unit :=
  if self.currency ≠ other.currency then
    ((self, other),
     .error (.valueError "Переказ можливий тільки між рахунками в одній валюті."))
  else
    match self.withdraw amount now with
    | (self1, .error e) => ((self1, other), .error e)
    | (self1, .ok _) =>
      match other.deposit amount now with
      | (other1, .error e) =>
          (({ self1 with balance := self1.balance + amount }, other1), .error e)
      | (other1, .ok _) =>
          let relabeled := set_last_action self1.transaction_history ("Переказ до " ++ other1.owner)
          (({ self1 with transaction_history := relabeled }, other1), .ok ())

/-- The aliased call `a.transfer(a, m)`: the currency check trivially
passes and every step reads and writes the same object. -/
def transfer_self (self : BankAccount) (amount : ℚ) (now : String) :
    BankAccount × Except BankError Unit :=
  match self.withdraw amount now with
  | (self1, .error e) => (self1, .error e)
  | (self1, .ok _) =>
    match self1.deposit amount now with
    | (self2, .error e) =>
        ({ self2 with balance := self2.balance + amount }, .error e)
    | (self2, .ok _) =>
        let relabeled := set_last_action self2.transaction_history ("Переказ до " ++ self2.owner)
        ({ self2 with transaction_history := relabeled }, .ok ())

/-- `freeze_account()`. -/
def freeze_account (self : BankAccount) : BankAccount :=
  { self with is_frozen := true }

/-- `unfreeze_account()`. -/
def unfreeze_account (self : BankAccount) : BankAccount :=
  { self with is_frozen := false }

/-- `apply_interest(rate)`: frozen check first, then positivity of the
rate, then credit `balance * rate/100` and log it. -/
def apply_interest (self : BankAccount) (rate : ℚ) (now : String) :
    BankAccount × Except BankError ℚ :=
  if self.is_frozen then
    (self, .error (.permissionError
      "Не можна нараховувати відсотки на заморожений рахунок."))
  else if rate ≤ 0 then
    (self, .error (.valueError "Відсоткова ставка має бути додатною."))
  else
    let interest_amount := self.balance * (rate / 100)
    let self1 := { self with balance := self.balance + interest_amount }
    let self2 := log_transaction self1 now
      ("Відсотки (" ++ toString rate ++ "%)") interest_amount
    (self2, .ok self2.balance)

/-- `get_history()` as a pure value: `self.transaction_history[:]` copies
the list, so as a sequence of record values it equals the internal
history.  Aliasing of the record dicts is modelled separately below. -/
def get_history (self : BankAccount) : List TransactionRecord :=
  self.transaction_history

end BankAccount

/-- One call of the public interface, as it acts on one chosen account:
its own deposits, withdrawals, interest and freeze toggles, plus both
sides of a transfer (as sender, as aliased self-sender, and as the
receiver of a transfer initiated by some other account). -/
inductive Op where
  | dep (now : String) (amount : ℚ)
  | wd (now : String) (amount : ℚ)
  | xferTo (now : String) (other : BankAccount) (amount : ℚ)
  | xferSelf (now : String) (amount : ℚ)
  | recvFrom (now : String) (sender : BankAccount) (amount : ℚ)
  | interest (now : String) (rate : ℚ)
  | freeze
  | unfreeze

/-- The post-call state of the chosen account after one operation,
whether the call succeeded or raised. -/
def applyOp (a : BankAccount) : Op → BankAccount
  | .dep now m => (a.deposit m now).1
  | .wd now m => (a.withdraw m now).1
  | .xferTo now o m => (a.transfer o m now).1.1
  | .xferSelf now m => (a.transfer_self m now).1
  | .recvFrom now s m => (s.transfer a m now).1.2
  | .interest now r => (a.apply_interest r now).1
  | .freeze => a.freeze_account
  | .unfreeze => a.unfreeze_account

/-- The account state after a whole sequence of operations. -/
def runOps (a : BankAccount) (ops : List Op) : BankAccount :=
  ops.foldl applyOp a

/-!
Object-identity model for `get_history`.  In Python
`self.transaction_history[:]` builds a new list whose elements are the
very same record dicts.  We model the record dicts as entries of a heap
(indexed by their identity) and the account's history as the list of
identities it holds; `get_history` hands the caller a fresh list of the
same identities.
-/

/-- The heap of record dicts: position = object identity. -/
structure RecordHeap where
  recs : List TransactionRecord

/-- An account as it refers to its history records: a list of record
identities into the heap. -/
structure AccountRef where
  histIds : List Nat

/-- `get_history()` under the identity model: the returned list is a new
list object, but it contains the same record identities. -/
def get_history_refs (a : AccountRef) : List Nat :=
  a.histIds

/-- The account's internally stored history: the record dicts its
identities denote in the heap. -/
def internal_history (h : RecordHeap) (a : AccountRef) :
    List (Option TransactionRecord) :=
  a.histIds.map (fun i => h.recs[i]?)

/-- A caller-side mutation of one record dict reached through its
identity, e.g. `rec["action"] = s` on an element of the returned list. -/
def set_record_action (h : RecordHeap) (i : Nat) (s : String) : RecordHeap :=
  match h.recs[i]? with
  | none => h
  | some r => { recs := h.recs.set i { r with action := s } }

/-- A one-record heap for the concrete aliasing counterexample. -/
def heap0 : RecordHeap :=
  { recs := [{ date := "d0", action := "Створення рахунку", amount := 1000,
               balance_after := 1000 }] }

/-- The account owning the single record of `heap0`. -/
def accRef0 : AccountRef := { histIds := [0] }

/-- The account the test suite builds in `setUp`: 1000 UAH, unfrozen,
one creation record. -/
def accUAH : BankAccount :=
  { owner := "User UAH", balance := 1000, currency := "UAH",
    is_frozen := false,
    transaction_history :=
      [{ date := "d0", action := "Створення рахунку", amount := 1000,
         balance_after := 1000 }] }

/-- A frozen same-currency receiver used by the concrete counterexamples. -/
def accFrozen : BankAccount :=
  { owner := "Frozen User", balance := 500, currency := "UAH",
    is_frozen := true,
    transaction_history :=
      [{ date := "d0", action := "Створення рахунку", amount := 500,
         balance_after := 500 }] }

-- Sanity checks on concrete inputs (the scenarios of the test suite).

example : BankAccount.make "User UAH" 1000 "UAH" "d0" = .ok accUAH := by rfl

example : (accUAH.deposit 500 "d1").1.balance = 1500 := by
  norm_num [accUAH, BankAccount.deposit, BankAccount.log_transaction]

example :
    ((accUAH.deposit 500 "d1").1.withdraw 200 "d2").1.balance = 1300 := by
  norm_num [accUAH, BankAccount.deposit, BankAccount.withdraw,
    BankAccount.log_transaction]

example :
    ((accUAH.deposit 500 "d1").1.withdraw 200
      "d2").1.transaction_history.length = 3 := by
  norm_num [accUAH, BankAccount.deposit, BankAccount.withdraw,
    BankAccount.log_transaction]

example : (accUAH.apply_interest 10 "d1").2 = .ok 1100 := by
  norm_num [accUAH, BankAccount.apply_interest, BankAccount.log_transaction]

namespace BankAccount

-- Shape lemmas: the exact result of each method on each branch.

lemma deposit_frozen (self : BankAccount) (amount : ℚ) (now : String)
    (h : self.is_frozen = true) :
    self.deposit amount now =
      (self, .error (.permissionError "Рахунок заморожено. Операції заборонені.")) := by
  simp [deposit, h]

lemma withdraw_frozen (self : BankAccount) (amount : ℚ) (now : String)
    (h : self.is_frozen = true) :
    self.withdraw amount now =
      (self, .error (.permissionError "Рахунок заморожено. Операції заборонені.")) := by
  simp [withdraw, h]

lemma apply_interest_frozen (self : BankAccount) (rate : ℚ) (now : String)
    (h : self.is_frozen = true) :
    self.apply_interest rate now =
      (self, .error (.permissionError
        "Не можна нараховувати відсотки на заморожений рахунок.")) := by
  simp [apply_interest, h]

lemma deposit_nonpos (self : BankAccount) (amount : ℚ) (now : String)
    (h1 : self.is_frozen = false) (h2 : amount ≤ 0) :
    self.deposit amount now =
      (self, .error (.valueError "Сума поповнення має бути більше нуля.")) := by
  simp [deposit, h1, h2]

lemma withdraw_nonpos (self : BankAccount) (amount : ℚ) (now : String)
    (h1 : self.is_frozen = false) (h2 : amount ≤ 0) :
    self.withdraw amount now =
      (self, .error (.valueError "Сума зняття має бути більше нуля.")) := by
  simp [withdraw, h1, h2]

lemma withdraw_insufficient (self : BankAccount) (amount : ℚ) (now : String)
    (h1 : self.is_frozen = false) (h2 : 0 < amount)
    (h3 : self.balance < amount) :
    self.withdraw amount now =
      (self, .error (.valueError "Недостатньо коштів на рахунку.")) := by
  simp [withdraw, h1, not_le.mpr h2, h3]

lemma deposit_ok (self : BankAccount) (amount : ℚ) (now : String)
    (h1 : self.is_frozen = false) (h2 : 0 < amount) :
    self.deposit amount now =
      ({ self with
          balance := self.balance + amount,
          transaction_history := self.transaction_history ++
            [{ date := now, action := "Поповнення", amount := amount,
               balance_after := self.balance + amount }] },
       .ok (self.balance + amount)) := by
  simp [deposit, log_transaction, h1, not_le.mpr h2]

lemma withdraw_ok (self : BankAccount) (amount : ℚ) (now : String)
    (h1 : self.is_frozen = false) (h2 : 0 < amount)
    (h3 : amount ≤ self.balance) :
    self.withdraw amount now =
      ({ self with
          balance := self.balance - amount,
          transaction_history := self.transaction_history ++
            [{ date := now, action := "Зняття", amount := -amount,
               balance_after := self.balance - amount }] },
       .ok (self.balance - amount)) := by
  simp [withdraw, log_transaction, h1, not_le.mpr h2, not_lt.mpr h3]

lemma apply_interest_ok (self : BankAccount) (rate : ℚ) (now : String)
    (h1 : self.is_frozen = false) (h2 : 0 < rate) :
    self.apply_interest rate now =
      ({ self with
          balance := self.balance + self.balance * (rate / 100),
          transaction_history := self.transaction_history ++
            [{ date := now, action := "Відсотки (" ++ toString rate ++ "%)",
               amount := self.balance * (rate / 100),
               balance_after := self.balance + self.balance * (rate / 100) }] },
       .ok (self.balance + self.balance * (rate / 100))) := by
  simp [apply_interest, log_transaction, h1, not_le.mpr h2]

lemma set_last_action_concat (l : List TransactionRecord)
    (r : TransactionRecord) (s : String) :
    set_last_action (l ++ [r]) s = l ++ [{ r with action := s }] := by
  simp [set_last_action]

lemma transfer_ok (x y : BankAccount) (A : ℚ) (now : String)
    (hc : x.currency = y.currency) (hx : x.is_frozen = false)
    (hy : y.is_frozen = false) (hA : 0 < A) (hbal : A ≤ x.balance) :
    x.transfer y A now =
      (({ x with
           balance := x.balance - A,
           transaction_history := x.transaction_history ++
             [{ date := now, action := "Переказ до " ++ y.owner, amount := -A,
                balance_after := x.balance - A }] },
        { y with
           balance := y.balance + A,
           transaction_history := y.transaction_history ++
             [{ date := now, action := "Поповнення", amount := A,
                balance_after := y.balance + A }] }),
       .ok ()) := by
  have hw := withdraw_ok x A now hx hA hbal
  have hd := deposit_ok y A now hy hA
  simp [transfer, hc, hw, hd, set_last_action_concat]

lemma transfer_frozen_receiver (x y : BankAccount) (A : ℚ) (now : String)
    (hc : x.currency = y.currency) (hx : x.is_frozen = false)
    (hy : y.is_frozen = true) (hA : 0 < A) (hbal : A ≤ x.balance) :
    x.transfer y A now =
      (({ x with
           balance := x.balance - A + A,
           transaction_history := x.transaction_history ++
             [{ date := now, action := "Зняття", amount := -A,
                balance_after := x.balance - A }] },
        y),
       .error (.permissionError "Рахунок заморожено. Операції заборонені.")) := by
  have hw := withdraw_ok x A now hx hA hbal
  have hd := deposit_frozen y A now hy
  simp [transfer, hc, hw, hd]

lemma set_last_action_concat2 (l : List TransactionRecord)
    (r1 r2 : TransactionRecord) (s : String) :
    set_last_action (l ++ [r1, r2]) s =
      l ++ [r1, { r2 with action := s }] := by
  have h : l ++ [r1, r2] = (l ++ [r1]) ++ [r2] := by simp
  rw [h, set_last_action_concat]
  simp

lemma transfer_self_ok (x : BankAccount) (A : ℚ) (now : String)
    (hx : x.is_frozen = false) (hA : 0 < A) (hbal : A ≤ x.balance) :
    x.transfer_self A now =
      ({ x with
          balance := x.balance,
          transaction_history := x.transaction_history ++
            [{ date := now, action := "Зняття", amount := -A,
               balance_after := x.balance - A },
             { date := now, action := "Переказ до " ++ x.owner, amount := A,
               balance_after := x.balance }] },
       .ok ()) := by
  have hw := withdraw_ok x A now hx hA hbal
  simp only [transfer_self, hw]
  have hd := deposit_ok
    ({ x with
        balance := x.balance - A,
        transaction_history := x.transaction_history ++
          [{ date := now, action := "Зняття", amount := -A,
             balance_after := x.balance - A }] }) A now (by simp [hx]) hA
  simp [hd, set_last_action_concat2]

-- Exhaustive branch characterizations: every call either raises leaving
-- the account unchanged, or succeeds with the explicit post-state (the
-- one exception being a failed transfer, which mutates the sender).

lemma deposit_cases (a : BankAccount) (m : ℚ) (now : String) :
    (∃ e, a.deposit m now = (a, .error e)) ∨
    (0 < m ∧ a.is_frozen = false ∧
      a.deposit m now =
        ({ a with
            balance := a.balance + m,
            transaction_history := a.transaction_history ++
              [{ date := now, action := "Поповнення", amount := m,
                 balance_after := a.balance + m }] },
         .ok (a.balance + m))) := by
  by_cases hf : a.is_frozen = true
  · exact .inl ⟨_, deposit_frozen a m now hf⟩
  · have hf' : a.is_frozen = false := by simpa using hf
    by_cases hm : m ≤ 0
    · exact .inl ⟨_, deposit_nonpos a m now hf' hm⟩
    · exact .inr ⟨not_le.mp hm, hf', deposit_ok a m now hf' (not_le.mp hm)⟩

lemma withdraw_cases (a : BankAccount) (m : ℚ) (now : String) :
    (∃ e, a.withdraw m now = (a, .error e)) ∨
    (0 < m ∧ m ≤ a.balance ∧ a.is_frozen = false ∧
      a.withdraw m now =
        ({ a with
            balance := a.balance - m,
            transaction_history := a.transaction_history ++
              [{ date := now, action := "Зняття", amount := -m,
                 balance_after := a.balance - m }] },
         .ok (a.balance - m))) := by
  by_cases hf : a.is_frozen = true
  · exact .inl ⟨_, withdraw_frozen a m now hf⟩
  · have hf' : a.is_frozen = false := by simpa using hf
    by_cases hm : m ≤ 0
    · exact .inl ⟨_, withdraw_nonpos a m now hf' hm⟩
    · by_cases hins : a.balance < m
      · exact .inl ⟨_, withdraw_insufficient a m now hf' (not_le.mp hm) hins⟩
      · exact .inr ⟨not_le.mp hm, not_lt.mp hins, hf',
          withdraw_ok a m now hf' (not_le.mp hm) (not_lt.mp hins)⟩

lemma apply_interest_cases (a : BankAccount) (rate : ℚ) (now : String) :
    (∃ e, a.apply_interest rate now = (a, .error e)) ∨
    (0 < rate ∧ a.is_frozen = false ∧
      a.apply_interest rate now =
        ({ a with
            balance := a.balance + a.balance * (rate / 100),
            transaction_history := a.transaction_history ++
              [{ date := now,
                 action := "Відсотки (" ++ toString rate ++ "%)",
                 amount := a.balance * (rate / 100),
                 balance_after := a.balance + a.balance * (rate / 100) }] },
         .ok (a.balance + a.balance * (rate / 100)))) := by
  by_cases hf : a.is_frozen = true
  · exact .inl ⟨_, apply_interest_frozen a rate now hf⟩
  · have hf' : a.is_frozen = false := by simpa using hf
    by_cases hr : rate ≤ 0
    · exact .inl ⟨.valueError "Відсоткова ставка має бути додатною.",
        by simp [apply_interest, hf', hr]⟩
    · exact .inr ⟨not_le.mp hr, hf',
        apply_interest_ok a rate now hf' (not_le.mp hr)⟩

lemma transfer_cases (a b : BankAccount) (m : ℚ) (now : String) :
    (∃ e, a.transfer b m now = ((a, b), .error e)) ∨
    (0 < m ∧ m ≤ a.balance ∧ a.is_frozen = false ∧ b.is_frozen = true ∧
      a.transfer b m now =
        (({ a with
             balance := a.balance - m + m,
             transaction_history := a.transaction_history ++
               [{ date := now, action := "Зняття", amount := -m,
                  balance_after := a.balance - m }] },
          b),
         .error (.permissionError "Рахунок заморожено. Операції заборонені."))) ∨
    (0 < m ∧ m ≤ a.balance ∧ a.is_frozen = false ∧ b.is_frozen = false ∧
      a.transfer b m now =
        (({ a with
             balance := a.balance - m,
             transaction_history := a.transaction_history ++
               [{ date := now, action := "Переказ до " ++ b.owner,
                  amount := -m, balance_after := a.balance - m }] },
          { b with
             balance := b.balance + m,
             transaction_history := b.transaction_history ++
               [{ date := now, action := "Поповнення", amount := m,
                  balance_after := b.balance + m }] }),
         .ok ())) := by
  by_cases hcur : a.currency = b.currency
  · by_cases hf : a.is_frozen = true
    · exact .inl ⟨.permissionError "Рахунок заморожено. Операції заборонені.",
        by simp [transfer, hcur, withdraw_frozen a m now hf]⟩
    · have hf' : a.is_frozen = false := by simpa using hf
      by_cases hm : m ≤ 0
      · exact .inl ⟨.valueError "Сума зняття має бути більше нуля.",
          by simp [transfer, hcur, withdraw_nonpos a m now hf' hm]⟩
      · by_cases hins : a.balance < m
        · exact .inl ⟨.valueError "Недостатньо коштів на рахунку.", by
            simp [transfer, hcur,
              withdraw_insufficient a m now hf' (not_le.mp hm) hins]⟩
        · by_cases hbf : b.is_frozen = true
          · exact .inr (.inl ⟨not_le.mp hm, not_lt.mp hins, hf', hbf,
              transfer_frozen_receiver a b m now hcur hf' hbf
                (not_le.mp hm) (not_lt.mp hins)⟩)
          · have hbf' : b.is_frozen = false := by simpa using hbf
            exact .inr (.inr ⟨not_le.mp hm, not_lt.mp hins, hf', hbf',
              transfer_ok a b m now hcur hf' hbf'
                (not_le.mp hm) (not_lt.mp hins)⟩)
  · exact .inl ⟨.valueError "Переказ можливий тільки між рахунками в одній валюті.",
      by simp [transfer, hcur]⟩

lemma transfer_self_cases (a : BankAccount) (m : ℚ) (now : String) :
    (∃ e, a.transfer_self m now = (a, .error e)) ∨
    (0 < m ∧ m ≤ a.balance ∧ a.is_frozen = false ∧
      a.transfer_self m now =
        ({ a with
            balance := a.balance,
            transaction_history := a.transaction_history ++
              [{ date := now, action := "Зняття", amount := -m,
                 balance_after := a.balance - m },
               { date := now, action := "Переказ до " ++ a.owner,
                 amount := m, balance_after := a.balance }] },
         .ok ())) := by
  by_cases hf : a.is_frozen = true
  · exact .inl ⟨.permissionError "Рахунок заморожено. Операції заборонені.",
      by simp [transfer_self, withdraw_frozen a m now hf]⟩
  · have hf' : a.is_frozen = false := by simpa using hf
    by_cases hm : m ≤ 0
    · exact .inl ⟨.valueError "Сума зняття має бути більше нуля.",
        by simp [transfer_self, withdraw_nonpos a m now hf' hm]⟩
    · by_cases hins : a.balance < m
      · exact .inl ⟨.valueError "Недостатньо коштів на рахунку.", by
          simp [transfer_self,
            withdraw_insufficient a m now hf' (not_le.mp hm) hins]⟩
      · exact .inr ⟨not_le.mp hm, not_lt.mp hins, hf',
          transfer_self_ok a m now hf' (not_le.mp hm) (not_lt.mp hins)⟩

-- Balance non-negativity of every post-call state.

lemma deposit_balance_nonneg (a : BankAccount) (m : ℚ) (now : String)
    (ha : 0 ≤ a.balance) : 0 ≤ (a.deposit m now).1.balance := by
  rcases deposit_cases a m now with ⟨e, he⟩ | ⟨hm, _, he⟩ <;> rw [he]
  · exact ha
  · show (0 : ℚ) ≤ a.balance + m
    linarith

lemma withdraw_balance_nonneg (a : BankAccount) (m : ℚ) (now : String)
    (ha : 0 ≤ a.balance) : 0 ≤ (a.withdraw m now).1.balance := by
  rcases withdraw_cases a m now with ⟨e, he⟩ | ⟨hm, hbal, _, he⟩ <;> rw [he]
  · exact ha
  · show (0 : ℚ) ≤ a.balance - m
    linarith

lemma apply_interest_balance_nonneg (a : BankAccount) (rate : ℚ)
    (now : String) (ha : 0 ≤ a.balance) :
    0 ≤ (a.apply_interest rate now).1.balance := by
  rcases apply_interest_cases a rate now with ⟨e, he⟩ | ⟨hr, _, he⟩ <;> rw [he]
  · exact ha
  · show (0 : ℚ) ≤ a.balance + a.balance * (rate / 100)
    have h1 : (0 : ℚ) ≤ a.balance * (rate / 100) :=
      mul_nonneg ha (by positivity)
    linarith

lemma transfer_sender_balance_nonneg (a b : BankAccount) (m : ℚ)
    (now : String) (ha : 0 ≤ a.balance) :
    0 ≤ (a.transfer b m now).1.1.balance := by
  rcases transfer_cases a b m now with
    ⟨e, he⟩ | ⟨hm, hbal, _, _, he⟩ | ⟨hm, hbal, _, _, he⟩ <;> rw [he]
  · exact ha
  · show (0 : ℚ) ≤ a.balance - m + m
    linarith
  · show (0 : ℚ) ≤ a.balance - m
    linarith

lemma transfer_receiver_balance_nonneg (a b : BankAccount) (m : ℚ)
    (now : String) (hb : 0 ≤ b.balance) :
    0 ≤ (a.transfer b m now).1.2.balance := by
  rcases transfer_cases a b m now with
    ⟨e, he⟩ | ⟨hm, hbal, _, _, he⟩ | ⟨hm, hbal, _, _, he⟩ <;> rw [he]
  · exact hb
  · exact hb
  · show (0 : ℚ) ≤ b.balance + m
    linarith

lemma transfer_self_balance_nonneg (a : BankAccount) (m : ℚ) (now : String)
    (ha : 0 ≤ a.balance) : 0 ≤ (a.transfer_self m now).1.balance := by
  rcases transfer_self_cases a m now with ⟨e, he⟩ | ⟨hm, hbal, _, he⟩ <;>
    rw [he]
  · exact ha
  · exact ha

lemma make_balance_nonneg (nm : String) (ib : ℚ) (cur now : String)
    (acc : BankAccount) (h : make nm ib cur now = .ok acc) :
    0 ≤ acc.balance := by
  simp only [make] at h
  split_ifs at h with h1
  · injection h with h2
    subst h2
    show (0 : ℚ) ≤ ib
    linarith [not_lt.mp h1]

end BankAccount

/-- C1: a successful same-currency transfer debits the sender by `A`,
credits the receiver by `A`, and relabels the sender's most recent
history entry (the withdrawal record just appended, whose earlier
entries are untouched) to a transfer to the receiver's owner, keeping
the record's amount (`-A`) and timestamp. -/
theorem transfer_success_postconditions (x y : BankAccount) (A : ℚ)
    (now : String) (hc : x.currency = y.currency) (hx : x.is_frozen = false)
    (hy : y.is_frozen = false) (hA : 0 < A) (hbal : A ≤ x.balance) :
    (x.transfer y A now).2 = .ok () ∧
    (x.transfer y A now).1.1.balance = x.balance - A ∧
    (x.transfer y A now).1.2.balance = y.balance + A ∧
    (x.transfer y A now).1.1.transaction_history.getLast? =
      some { date := now, action := "Переказ до " ++ y.owner, amount := -A,
             balance_after := x.balance - A } ∧
    (x.transfer y A now).1.1.transaction_history.dropLast =
      x.transaction_history := by
  rw [BankAccount.transfer_ok x y A now hc hx hy hA hbal]
  refine ⟨rfl, rfl, rfl, List.getLast?_concat _, List.dropLast_concat ..⟩

/-- C1 witness: a concrete successful transfer of 300 UAH. -/
theorem transfer_success_postconditions_witness :
    accUAH.currency = accFrozen.unfreeze_account.currency ∧
    accUAH.is_frozen = false ∧
    accFrozen.unfreeze_account.is_frozen = false ∧
    (0 : ℚ) < 300 ∧ (300 : ℚ) ≤ accUAH.balance ∧
    ((accUAH.transfer accFrozen.unfreeze_account 300 "d1").2 = .ok () ∧
     (accUAH.transfer accFrozen.unfreeze_account 300 "d1").1.1.balance =
       accUAH.balance - 300 ∧
     (accUAH.transfer accFrozen.unfreeze_account 300 "d1").1.2.balance =
       accFrozen.unfreeze_account.balance + 300 ∧
     (accUAH.transfer accFrozen.unfreeze_account 300
       "d1").1.1.transaction_history.getLast? =
       some { date := "d1",
              action := "Переказ до " ++ accFrozen.unfreeze_account.owner,
              amount := -300,
              balance_after := accUAH.balance - 300 } ∧
     (accUAH.transfer accFrozen.unfreeze_account 300
       "d1").1.1.transaction_history.dropLast = accUAH.transaction_history) :=
  ⟨rfl, rfl, rfl, by norm_num, by norm_num [accUAH],
   transfer_success_postconditions accUAH accFrozen.unfreeze_account 300 "d1"
     rfl rfl rfl (by norm_num) (by norm_num [accUAH])⟩

/-- C2: a transfer to a frozen same-currency receiver re-raises the
receiver's `PermissionError`, the sender's balance is restored to its
pre-call value by the compensation, and the receiver is completely
unchanged. -/
theorem transfer_frozen_receiver_compensation (x y : BankAccount) (A : ℚ)
    (now : String) (hc : x.currency = y.currency) (hx : x.is_frozen = false)
    (hy : y.is_frozen = true) (hA : 0 < A) (hbal : A ≤ x.balance) :
    (x.transfer y A now).2 =
      .error (.permissionError "Рахунок заморожено. Операції заборонені.") ∧
    (x.transfer y A now).1.1.balance = x.balance ∧
    (x.transfer y A now).1.2 = y := by
  rw [BankAccount.transfer_frozen_receiver x y A now hc hx hy hA hbal]
  refine ⟨rfl, ?_, rfl⟩
  simp

/-- C2 witness: transferring 100 UAH to a concrete frozen receiver. -/
theorem transfer_frozen_receiver_compensation_witness :
    accUAH.currency = accFrozen.currency ∧
    accUAH.is_frozen = false ∧ accFrozen.is_frozen = true ∧
    (0 : ℚ) < 100 ∧ (100 : ℚ) ≤ accUAH.balance ∧
    ((accUAH.transfer accFrozen 100 "d1").2 =
       .error (.permissionError "Рахунок заморожено. Операції заборонені.") ∧
     (accUAH.transfer accFrozen 100 "d1").1.1.balance = accUAH.balance ∧
     (accUAH.transfer accFrozen 100 "d1").1.2 = accFrozen) :=
  ⟨rfl, rfl, rfl, by norm_num, by norm_num [accUAH],
   transfer_frozen_receiver_compensation accUAH accFrozen 100 "d1" rfl rfl rfl
     (by norm_num) (by norm_num [accUAH])⟩

/-- C3 counterexample: after a failed transfer of 100 UAH to a frozen
receiver, the sender's history length is 2, not its pre-call 1 — the
compensated withdrawal record persists, so the claimed "history length
unchanged" is false. -/
theorem transfer_frozen_receiver_history_length_cex :
    (accUAH.transfer accFrozen 100 "d1").2 =
      .error (.permissionError "Рахунок заморожено. Операції заборонені.") ∧
    accUAH.transaction_history.length = 1 ∧
    ¬ ((accUAH.transfer accFrozen 100
        "d1").1.1.transaction_history.length =
       accUAH.transaction_history.length) := by
  rw [BankAccount.transfer_frozen_receiver accUAH accFrozen 100 "d1" rfl rfl
    rfl (by norm_num) (by norm_num [accUAH])]
  refine ⟨rfl, rfl, ?_⟩
  simp [accUAH]

/-- C3 amended: after the failed transfer the sender's history is one
record longer than before the call — exactly the compensated withdrawal
record, still carrying its plain withdrawal label. -/
theorem transfer_frozen_receiver_history (x y : BankAccount) (A : ℚ)
    (now : String) (hc : x.currency = y.currency) (hx : x.is_frozen = false)
    (hy : y.is_frozen = true) (hA : 0 < A) (hbal : A ≤ x.balance) :
    (x.transfer y A now).1.1.transaction_history =
      x.transaction_history ++
        [{ date := now, action := "Зняття", amount := -A,
           balance_after := x.balance - A }] ∧
    (x.transfer y A now).1.1.transaction_history.length =
      x.transaction_history.length + 1 := by
  rw [BankAccount.transfer_frozen_receiver x y A now hc hx hy hA hbal]
  exact ⟨rfl, by simp⟩

/-- C3 amended witness: the concrete failed transfer of 100 UAH. -/
theorem transfer_frozen_receiver_history_witness :
    accUAH.currency = accFrozen.currency ∧
    accUAH.is_frozen = false ∧ accFrozen.is_frozen = true ∧
    (0 : ℚ) < 100 ∧ (100 : ℚ) ≤ accUAH.balance ∧
    ((accUAH.transfer accFrozen 100 "d1").1.1.transaction_history =
       accUAH.transaction_history ++
         [{ date := "d1", action := "Зняття", amount := -100,
            balance_after := accUAH.balance - 100 }] ∧
     (accUAH.transfer accFrozen 100 "d1").1.1.transaction_history.length =
       accUAH.transaction_history.length + 1) :=
  ⟨rfl, rfl, rfl, by norm_num, by norm_num [accUAH],
   transfer_frozen_receiver_history accUAH accFrozen 100 "d1" rfl rfl rfl
     (by norm_num) (by norm_num [accUAH])⟩

/-- C4: on a frozen account, deposit, withdraw and apply_interest each
raise `PermissionError` — whatever the amount or rate, valid or not —
and each leaves the whole account state (balance and history included)
unchanged. -/
theorem frozen_account_operations (a : BankAccount) (m rate : ℚ)
    (now : String) (h : a.is_frozen = true) :
    a.deposit m now =
      (a, .error (.permissionError "Рахунок заморожено. Операції заборонені.")) ∧
    a.withdraw m now =
      (a, .error (.permissionError "Рахунок заморожено. Операції заборонені.")) ∧
    a.apply_interest rate now =
      (a, .error (.permissionError
        "Не можна нараховувати відсотки на заморожений рахунок.")) :=
  ⟨BankAccount.deposit_frozen a m now h, BankAccount.withdraw_frozen a m now h,
   BankAccount.apply_interest_frozen a rate now h⟩

/-- C4 witness: a frozen account with a non-positive amount still
reports the frozen error first. -/
theorem frozen_account_operations_witness :
    accFrozen.is_frozen = true ∧
    (accFrozen.deposit (-5) "d1" =
      (accFrozen,
       .error (.permissionError "Рахунок заморожено. Операції заборонені.")) ∧
     accFrozen.withdraw (-5) "d1" =
      (accFrozen,
       .error (.permissionError "Рахунок заморожено. Операції заборонені.")) ∧
     accFrozen.apply_interest (-5) "d1" =
      (accFrozen,
       .error (.permissionError
         "Не можна нараховувати відсотки на заморожений рахунок."))) :=
  ⟨rfl, frozen_account_operations accFrozen (-5) (-5) "d1" rfl⟩

/-- C8: on an unfrozen account with a positive rate, `apply_interest`
adds exactly `balance * rate / 100`, appends one record whose amount is
that interest, and returns the new balance; concretely, 10% on balance
1000 returns exactly 1100. -/
theorem apply_interest_spec (a : BankAccount) (rate : ℚ) (now : String)
    (h1 : a.is_frozen = false) (h2 : 0 < rate) :
    (a.apply_interest rate now).1.balance =
      a.balance + a.balance * (rate / 100) ∧
    (a.apply_interest rate now).1.transaction_history =
      a.transaction_history ++
        [{ date := now, action := "Відсотки (" ++ toString rate ++ "%)",
           amount := a.balance * (rate / 100),
           balance_after := a.balance + a.balance * (rate / 100) }] ∧
    (a.apply_interest rate now).2 =
      .ok (a.balance + a.balance * (rate / 100)) ∧
    (accUAH.apply_interest 10 "d1").2 = .ok 1100 := by
  rw [BankAccount.apply_interest_ok a rate now h1 h2,
    BankAccount.apply_interest_ok accUAH 10 "d1" rfl (by norm_num)]
  refine ⟨rfl, rfl, rfl, ?_⟩
  norm_num [accUAH]

/-- C8 witness: 10% interest on the concrete 1000 UAH account. -/
theorem apply_interest_spec_witness :
    accUAH.is_frozen = false ∧ (0 : ℚ) < 10 ∧
    ((accUAH.apply_interest 10 "d1").1.balance =
       accUAH.balance + accUAH.balance * (10 / 100) ∧
     (accUAH.apply_interest 10 "d1").1.transaction_history =
       accUAH.transaction_history ++
         [{ date := "d1", action := "Відсотки (" ++ toString (10 : ℚ) ++ "%)",
            amount := accUAH.balance * (10 / 100),
            balance_after := accUAH.balance + accUAH.balance * (10 / 100) }] ∧
     (accUAH.apply_interest 10 "d1").2 =
       .ok (accUAH.balance + accUAH.balance * (10 / 100)) ∧
     (accUAH.apply_interest 10 "d1").2 = .ok 1100) :=
  ⟨rfl, by norm_num, apply_interest_spec accUAH 10 "d1" rfl (by norm_num)⟩

/-- C9: depositing `m` and then withdrawing `m` on an unfrozen account
returns the balance to its pre-deposit value, whenever `m > 0` and `m`
does not exceed the balance resulting from the deposit. -/
theorem deposit_withdraw_roundtrip (a : BankAccount) (m : ℚ)
    (now1 now2 : String) (hx : a.is_frozen = false) (hm : 0 < m)
    (hle : m ≤ (a.deposit m now1).1.balance) :
    ((a.deposit m now1).1.withdraw m now2).1.balance = a.balance := by
  rw [BankAccount.deposit_ok a m now1 hx hm] at hle ⊢
  rw [BankAccount.withdraw_ok _ m now2 (by simp [hx]) hm (by simpa using hle)]
  simp

/-- C9 witness: deposit 500 then withdraw 500 on the 1000 UAH account. -/
theorem deposit_withdraw_roundtrip_witness :
    accUAH.is_frozen = false ∧ (0 : ℚ) < 500 ∧
    (500 : ℚ) ≤ (accUAH.deposit 500 "d1").1.balance ∧
    ((accUAH.deposit 500 "d1").1.withdraw 500 "d2").1.balance =
      accUAH.balance :=
  ⟨rfl, by norm_num,
   by rw [BankAccount.deposit_ok accUAH 500 "d1" rfl (by norm_num)]
      norm_num [accUAH],
   deposit_withdraw_roundtrip accUAH 500 "d1" "d2" rfl (by norm_num)
     (by rw [BankAccount.deposit_ok accUAH 500 "d1" rfl (by norm_num)]
         norm_num [accUAH])⟩

/-- C10: the aliased self-transfer `a.transfer(a, m)` succeeds, leaves
the balance unchanged, appends exactly two records — the withdrawal
record keeping its plain label, then the deposit record — and the
relabeling hits the deposit record (the most recent entry). -/
theorem transfer_self_spec (a : BankAccount) (m : ℚ) (now : String)
    (hx : a.is_frozen = false) (hm : 0 < m) (hbal : m ≤ a.balance) :
    (a.transfer_self m now).2 = .ok () ∧
    (a.transfer_self m now).1.balance = a.balance ∧
    (a.transfer_self m now).1.transaction_history =
      a.transaction_history ++
        [{ date := now, action := "Зняття", amount := -m,
           balance_after := a.balance - m },
         { date := now, action := "Переказ до " ++ a.owner, amount := m,
           balance_after := a.balance }] := by
  rw [BankAccount.transfer_self_ok a m now hx hm hbal]
  exact ⟨rfl, rfl, rfl⟩

/-- C10 witness: self-transfer of 100 on the 1000 UAH account. -/
theorem transfer_self_spec_witness :
    accUAH.is_frozen = false ∧ (0 : ℚ) < 100 ∧
    (100 : ℚ) ≤ accUAH.balance ∧
    ((accUAH.transfer_self 100 "d1").2 = .ok () ∧
     (accUAH.transfer_self 100 "d1").1.balance = accUAH.balance ∧
     (accUAH.transfer_self 100 "d1").1.transaction_history =
       accUAH.transaction_history ++
         [{ date := "d1", action := "Зняття", amount := -100,
            balance_after := accUAH.balance - 100 },
          { date := "d1", action := "Переказ до " ++ accUAH.owner,
            amount := 100, balance_after := accUAH.balance }]) :=
  ⟨rfl, by norm_num, by norm_num [accUAH],
   transfer_self_spec accUAH 100 "d1" rfl (by norm_num)
     (by norm_num [accUAH])⟩

-- History evolution under arbitrary operation sequences.

lemma hist_head_len_append (l l' : List TransactionRecord) (h : l ≠ []) :
    (l ++ l').head? = l.head? ∧ l.length ≤ (l ++ l').length := by
  obtain ⟨x, xs, rfl⟩ := List.exists_cons_of_ne_nil h
  exact ⟨rfl, by simp⟩

lemma applyOp_history (a : BankAccount) (op : Op)
    (h : a.transaction_history ≠ []) :
    (applyOp a op).transaction_history.head? =
      a.transaction_history.head? ∧
    a.transaction_history.length ≤
      (applyOp a op).transaction_history.length := by
  cases op with
  | dep now m =>
    rcases BankAccount.deposit_cases a m now with ⟨e, he⟩ | ⟨_, _, he⟩ <;>
      simp only [applyOp, he]
    · exact ⟨by simp, by simp⟩
    · exact hist_head_len_append _ _ h
  | wd now m =>
    rcases BankAccount.withdraw_cases a m now with ⟨e, he⟩ | ⟨_, _, _, he⟩ <;>
      simp only [applyOp, he]
    · exact ⟨by simp, by simp⟩
    · exact hist_head_len_append _ _ h
  | xferTo now o m =>
    rcases BankAccount.transfer_cases a o m now with
      ⟨e, he⟩ | ⟨_, _, _, _, he⟩ | ⟨_, _, _, _, he⟩ <;> simp only [applyOp, he]
    · exact ⟨by simp, by simp⟩
    · exact hist_head_len_append _ _ h
    · exact hist_head_len_append _ _ h
  | xferSelf now m =>
    rcases BankAccount.transfer_self_cases a m now with
      ⟨e, he⟩ | ⟨_, _, _, he⟩ <;> simp only [applyOp, he]
    · exact ⟨by simp, by simp⟩
    · exact hist_head_len_append _ _ h
  | recvFrom now sender m =>
    rcases BankAccount.transfer_cases sender a m now with
      ⟨e, he⟩ | ⟨_, _, _, _, he⟩ | ⟨_, _, _, _, he⟩ <;> simp only [applyOp, he]
    · exact ⟨by simp, by simp⟩
    · exact ⟨by simp, by simp⟩
    · exact hist_head_len_append _ _ h
  | interest now r =>
    rcases BankAccount.apply_interest_cases a r now with
      ⟨e, he⟩ | ⟨_, _, he⟩ <;> simp only [applyOp, he]
    · exact ⟨by simp, by simp⟩
    · exact hist_head_len_append _ _ h
  | freeze => exact ⟨rfl, le_refl _⟩
  | unfreeze => exact ⟨rfl, le_refl _⟩

lemma runOps_history (a : BankAccount) (ops : List Op)
    (h : a.transaction_history ≠ []) :
    (runOps a ops).transaction_history.head? =
      a.transaction_history.head? ∧
    a.transaction_history.length ≤
      (runOps a ops).transaction_history.length ∧
    (runOps a ops).transaction_history ≠ [] := by
  induction ops generalizing a with
  | nil => exact ⟨rfl, le_refl _, h⟩
  | cons op ops ih =>
    have h1 := applyOp_history a op h
    have hne : (applyOp a op).transaction_history ≠ [] := by
      intro hnil
      have hlen := h1.2
      rw [hnil] at hlen
      simp at hlen
      exact h hlen
    have h2 := ih (applyOp a op) hne
    have hrun : runOps a (op :: ops) = runOps (applyOp a op) ops := rfl
    rw [hrun]
    exact ⟨h2.1.trans h1.1, h1.2.trans h2.2.1, h2.2.2⟩

/-- C5: `balance ≥ 0` is established by the constructor and preserved by
the post-call state of every public operation — deposit, withdraw, both
sides of a transfer (including the compensation path of a failed
transfer and the aliased self-transfer), interest, freeze and unfreeze —
whether the call succeeds or raises. -/
theorem balance_nonneg_invariant (a b : BankAccount) (m rate : ℚ)
    (now : String) (ha : 0 ≤ a.balance) (hb : 0 ≤ b.balance) :
    0 ≤ (a.deposit m now).1.balance ∧
    0 ≤ (a.withdraw m now).1.balance ∧
    0 ≤ (a.transfer b m now).1.1.balance ∧
    0 ≤ (a.transfer b m now).1.2.balance ∧
    0 ≤ (a.transfer_self m now).1.balance ∧
    0 ≤ (a.apply_interest rate now).1.balance ∧
    0 ≤ a.freeze_account.balance ∧
    0 ≤ a.unfreeze_account.balance ∧
    (∀ nm ib cur acc, BankAccount.make nm ib cur now = .ok acc →
      0 ≤ acc.balance) :=
  ⟨BankAccount.deposit_balance_nonneg a m now ha,
   BankAccount.withdraw_balance_nonneg a m now ha,
   BankAccount.transfer_sender_balance_nonneg a b m now ha,
   BankAccount.transfer_receiver_balance_nonneg a b m now hb,
   BankAccount.transfer_self_balance_nonneg a m now ha,
   BankAccount.apply_interest_balance_nonneg a rate now ha,
   ha, ha,
   fun nm ib cur acc h => BankAccount.make_balance_nonneg nm ib cur now acc h⟩

/-- C5 witness: the invariant instantiated on two concrete accounts. -/
theorem balance_nonneg_invariant_witness :
    (0 : ℚ) ≤ accUAH.balance ∧ (0 : ℚ) ≤ accFrozen.balance ∧
    (0 ≤ (accUAH.deposit 7 "d1").1.balance ∧
     0 ≤ (accUAH.withdraw 7 "d1").1.balance ∧
     0 ≤ (accUAH.transfer accFrozen 7 "d1").1.1.balance ∧
     0 ≤ (accUAH.transfer accFrozen 7 "d1").1.2.balance ∧
     0 ≤ (accUAH.transfer_self 7 "d1").1.balance ∧
     0 ≤ (accUAH.apply_interest 7 "d1").1.balance ∧
     0 ≤ accUAH.freeze_account.balance ∧
     0 ≤ accUAH.unfreeze_account.balance ∧
     (∀ nm ib cur acc, BankAccount.make nm ib cur "d1" = .ok acc →
       0 ≤ acc.balance)) :=
  ⟨by norm_num [accUAH], by norm_num [accFrozen],
   balance_nonneg_invariant accUAH accFrozen 7 7 "d1"
     (by norm_num [accUAH]) (by norm_num [accFrozen])⟩

/-- C7: for an account built by the constructor, the history length
never decreases across any further operation of the public interface,
and the first history entry stays the creation record, whose amount and
`balance_after` both equal the initial balance. -/
theorem history_monotone_creation_first (nm cur now0 : String) (ib : ℚ)
    (a : BankAccount) (h : BankAccount.make nm ib cur now0 = .ok a) :
    (∀ ops op, (runOps a ops).transaction_history.length ≤
      (runOps a (ops ++ [op])).transaction_history.length) ∧
    (∀ ops, (runOps a ops).transaction_history.head? =
      some { date := now0, action := "Створення рахунку", amount := ib,
             balance_after := ib }) := by
  have ha : a.transaction_history =
      [{ date := now0, action := "Створення рахунку", amount := ib,
         balance_after := ib }] := by
    simp only [BankAccount.make] at h
    split_ifs at h with h1
    · injection h with h2
      subst h2
      rfl
  have hne : a.transaction_history ≠ [] := by
    rw [ha]
    simp
  constructor
  · intro ops op
    have h1 := runOps_history a ops hne
    have h2 := applyOp_history (runOps a ops) op h1.2.2
    have hrun : runOps a (ops ++ [op]) = applyOp (runOps a ops) op := by
      simp [runOps, List.foldl_append]
    rw [hrun]
    exact h2.2
  · intro ops
    have h1 := runOps_history a ops hne
    rw [h1.1, ha]
    rfl

/-- C7 witness: the concrete constructed account. -/
theorem history_monotone_creation_first_witness :
    BankAccount.make "User UAH" 1000 "UAH" "d0" = .ok accUAH ∧
    ((∀ ops op, (runOps accUAH ops).transaction_history.length ≤
       (runOps accUAH (ops ++ [op])).transaction_history.length) ∧
     (∀ ops, (runOps accUAH ops).transaction_history.head? =
       some { date := "d0", action := "Створення рахунку", amount := 1000,
              balance_after := 1000 })) :=
  ⟨rfl, history_monotone_creation_first "User UAH" "UAH" "d0" 1000 accUAH rfl⟩

/-- C6 counterexample: `get_history` copies only the list, not the
record dicts.  Mutating the record reached through identity 0 of the
returned list changes the account's internally stored history, so the
claimed full independence is false. -/
theorem get_history_record_aliasing_cex :
    0 ∈ get_history_refs accRef0 ∧
    internal_history (set_record_action heap0 0 "hacked") accRef0 ≠
      internal_history heap0 accRef0 := by
  refine ⟨by simp [get_history_refs, accRef0], ?_⟩
  simp [internal_history, set_record_action, heap0, accRef0,
    TransactionRecord.mk.injEq]

/-- C6 amended: the returned value shares its record objects with the
account — `get_history` hands back the same record identities — so while
the list itself is a fresh copy, rewriting the action of any record
reachable from it changes the internally stored history. -/
theorem get_history_shallow_copy (h : RecordHeap) (a : AccountRef)
    (i id : Nat) (r : TransactionRecord) (s : String)
    (hid : a.histIds[i]? = some id) (hr : h.recs[id]? = some r)
    (hs : s ≠ r.action) :
    get_history_refs a = a.histIds ∧
    internal_history (set_record_action h id s) a ≠
      internal_history h a := by
  refine ⟨rfl, fun heq => ?_⟩
  have hlt : id < h.recs.length := (List.getElem?_eq_some.mp hr).1
  have h1 : (internal_history (set_record_action h id s) a)[i]? =
      (internal_history h a)[i]? := by rw [heq]
  rw [internal_history, internal_history, List.getElem?_map,
    List.getElem?_map, hid] at h1
  simp only [Option.map_some'] at h1
  have h2 := Option.some.inj h1
  have h3 : (set_record_action h id s).recs =
      h.recs.set id { r with action := s } := by
    simp [set_record_action, hr]
  rw [h3, List.getElem?_set_eq_of_lt _ hlt, hr] at h2
  have h4 := Option.some.inj h2
  exact hs (congrArg TransactionRecord.action h4)

/-- C6 amended witness: the concrete one-record heap. -/
theorem get_history_shallow_copy_witness :
    accRef0.histIds[0]? = some 0 ∧
    heap0.recs[0]? = some { date := "d0", action := "Створення рахунку",
                            amount := 1000, balance_after := 1000 } ∧
    "hacked" ≠ "Створення рахунку" ∧
    (get_history_refs accRef0 = accRef0.histIds ∧
     internal_history (set_record_action heap0 0 "hacked") accRef0 ≠
       internal_history heap0 accRef0) :=
  ⟨rfl, rfl, by decide,
   get_history_shallow_copy heap0 accRef0 0 0
     { date := "d0", action := "Створення рахунку", amount := 1000,
       balance_after := 1000 } "hacked" rfl rfl (by decide)⟩
